import Mathlib

/-!
Verification of the toolbin repository against its specification.

The main embedding covers `src/letsrenew.py`: a straight-line script that
checks a TLS certificate's remaining lifetime, and if it is below a
threshold, temporarily opens port 80 in an EC2 security group, runs
certbot, removes the rule again and runs a follow-up shell command.
The script is embedded as a deterministic trace-producing function
`mainRun` over an environment `Env` that supplies the results of the
external interactions (the TLS probe, the EC2 API, command execution).

`src/lambda302.py` (a subdomain-to-S3 redirect Lambda handler) is embedded
as `lambda_handler`.

Note on the source text of `letsrenew.py`: the call
`out = run_cmd(f"""certbot ...""" ` at line 212 is never closed with `)`,
so the file as committed does not parse; the embedding repairs this in the
only evident way (closing the call after the f-string), which matches the
surrounding comments and the script header.
-/

namespace ToolBin

/-! ## Configuration section of letsrenew.py (lines 68-97) -/

/-- `domain = 'mydomain.tld'` (line 69). -/
def domain : String := "mydomain.tld"

/-- `threshold = 5 * 24 * 60 * 60` (line 72): renewal threshold in seconds. -/
def threshold : Int := 5 * 24 * 60 * 60

/-- `pre_command` (lines 75-77), a triple-quoted shell snippet. -/
def pre_command : String := "\n    echo \"pre command\"\n  "

/-- `post_command` (lines 80-82); defined in the configuration but, as the
embedding of the main block shows, never executed. -/
def post_command : String := "\n    echo \"post command\"\n  "

/-- One entry of the `IpRanges` list of the temporary rule. -/
structure IpRange where
  cidrIp : String
  description : String
deriving DecidableEq, Repr

/-- One ip-permission dictionary as passed to authorize/revoke ingress. -/
structure IpPermission where
  fromPort : Nat
  toPort : Nat
  ipProtocol : String
  ipRanges : List IpRange
deriving DecidableEq, Repr

/-- The single permission of `temp_rule` (lines 85-97): port 80, tcp,
0.0.0.0/0, description "temp-letsrenew-rule". -/
def tempPerm : IpPermission :=
  { fromPort := 80, toPort := 80, ipProtocol := "tcp",
    ipRanges := [{ cidrIp := "0.0.0.0/0", description := "temp-letsrenew-rule" }] }

/-- `temp_rule` (lines 85-97): the list of ip permissions for the temporary
ingress rule. -/
def temp_rule : List IpPermission := [tempPerm]

/-- A permission distinct from the temporary rule (port 443). -/
def httpsPerm : IpPermission :=
  { fromPort := 443, toPort := 443, ipProtocol := "tcp",
    ipRanges := [{ cidrIp := "0.0.0.0/0", description := "https" }] }

/-- The f-string passed to `run_cmd` at lines 212-215 of the main block
(with `{domain}` interpolated). -/
def certbotCmd : String :=
  "\n            certbot -d " ++ domain ++ " --standalone certonly\n            #certbot-auto -d " ++ domain ++ " --standalone certonly\n        "

/-! ## The renewal decision (line 191)

The main block's guard `if seconds_left < threshold:` is the renewal
decision; the spec calls it `Decide`. -/

inductive Decision
  | renew
  | skip
deriving DecidableEq, Repr

/-- The decision of line 191: renew exactly when the remaining seconds are
strictly below the threshold. -/
def Decide (secondsRemaining thr : Int) : Decision :=
  if secondsRemaining < thr then Decision.renew else Decision.skip

/-! ## EC2 security-group API model

Environment model of the EC2 calls the script makes.  A group's ingress
rule set is a list of ip permissions; per the EC2 API, authorizing an
ingress permission that the group already holds fails with
`InvalidPermission.Duplicate`, and revoking a permission the group does
not hold fails with `InvalidPermission.NotFound`; both surface in boto3
as a raised `ClientError`. -/

inductive ApiError
  | duplicate
  | notFound
deriving DecidableEq, Repr

/-- The ingress rule set of one security group. -/
structure SecurityGroupState where
  rules : List IpPermission
deriving DecidableEq, Repr

/-- EC2 `authorize_ingress` semantics: error on a duplicate permission,
otherwise append the permissions to the group. -/
def authorize_ingress (sg : SecurityGroupState) (perms : List IpPermission) :
    Except ApiError SecurityGroupState :=
  if perms.any (fun p => decide (p ∈ sg.rules)) then Except.error ApiError.duplicate
  else Except.ok { rules := sg.rules ++ perms }

/-- EC2 `revoke_ingress` semantics: error when a requested permission is
absent, otherwise remove the permissions from the group. -/
def revoke_ingress (sg : SecurityGroupState) (perms : List IpPermission) :
    Except ApiError SecurityGroupState :=
  if perms.all (fun p => decide (p ∈ sg.rules)) then
    Except.ok { rules := sg.rules.filter (fun r => !(perms.any (fun p => decide (p = r)))) }
  else Except.error ApiError.notFound

/-- Embeds `add_rule_to_security_group` (lines 172-175): it calls
`sg.authorize_ingress(DryRun=False, IpPermissions=temp_rule)` with no
exception handling, so any API error propagates to the caller. -/
def add_rule_to_security_group (sg : SecurityGroupState) :
    Except ApiError SecurityGroupState :=
  authorize_ingress sg temp_rule

/-- Embeds `remove_rule_from_security_group` (lines 177-180): it calls
`sg.revoke_ingress(DryRun=False, IpPermissions=temp_rule)` with no
exception handling, so any API error propagates to the caller. -/
def remove_rule_from_security_group (sg : SecurityGroupState) :
    Except ApiError SecurityGroupState :=
  revoke_ingress sg temp_rule

/-! ## get_security_group_by_name (lines 161-170) -/

/-- One element of the `SecurityGroups` list returned by
`describe_security_groups`. -/
structure SecGroupInfo where
  groupId : String
deriving DecidableEq, Repr

/-- The EC2 client world: `describe` gives, per client handle and group
name, the list of groups whose `group-name` matches the filter;
`freshClient` is the handle a new `boto3.client('ec2')` call returns. -/
structure Ec2World where
  describe : Nat → String → List SecGroupInfo
  freshClient : Nat

/-- Embeds `get_security_group_by_name` (lines 161-170).  The Python body
immediately rebinds `ec2 = boto3.client('ec2')`, discarding the client
passed as the argument, then returns
`resp['SecurityGroups'][0]['GroupId']`: the unguarded `[0]` is modelled
as `List.head?`, with `none` standing for the raised `IndexError`. -/
def get_security_group_by_name (w : Ec2World) (ec2 : Nat) (name : String) :
    Option String :=
  let ec2 := w.freshClient
  ((w.describe ec2 name).map SecGroupInfo.groupId).head?

/-! ## The main block (lines 188-225)

The script is straight-line code with no try/except or try/finally:
every step either succeeds and control falls through to the next line, or
raises and the process dies there.  `mainRun` replays the block over an
environment that fixes the outcome of each external interaction and
returns the list of external actions performed, in order, together with
how the process ended. -/

/-- An externally visible action of the script, in program order. -/
inductive Event
  | sslConnect (host : String)
  | printOut (s : String)
  | runCmd (cmd : String)
  | httpGet (url : String)
  | describeSG (name : String)
  | authorizeIngress (sg : String)
  | revokeIngress (sg : String)
deriving DecidableEq, Repr

/-- How the process terminated: fell off the end of the script, called
`sys.exit(code)`, or died of an uncaught exception. -/
inductive Outcome
  | finished
  | exited (code : Nat)
  | raised (err : String)
deriving DecidableEq, Repr

/-- The environment of one invocation: the hostname argument, the result
of the TLS probe (`none` means the connection could not be established or
timed out), the EC2 world, the security-group name the instance metadata
reports, and whether each fallible later step succeeds (`authorizeOk`,
`revokeOk`: the boto3 ingress mutation does not raise; `renewOk`: the
certbot `run_cmd` step does not raise an unexpected exception). -/
structure Env where
  host : String
  sslConn : Option Int
  world : Ec2World
  sgName : String
  authorizeOk : Bool
  renewOk : Bool
  revokeOk : Bool

/-- URL of the instance identity document fetched at line 198. -/
def identityDocUrl : String :=
  "http://169.254.169.254/latest/dynamic/instance-identity/document"

/-- URL of the security-groups metadata fetched at line 205. -/
def sgMetadataUrl : String :=
  "http://169.254.169.254/latest/meta-data/security-groups"

/-- Embeds the main block (lines 188-225), with the unclosed parenthesis
of line 212 repaired as noted in the header.  Control flow of the source:

* `ssl_expiration` (line 189): a failed connect prints the exception and
  calls bare `sys.exit()`, which exits with status 0 (lines 146-150);
* the guard `if seconds_left < threshold:` (line 191) is `Decide`; when
  it is Skip the script simply ends;
* on the Renew path: pre-command, two metadata fetches,
  `get_security_group_by_name` (whose unguarded `[0]` raises IndexError
  on an empty describe result), `add_rule_to_security_group`, the certbot
  `run_cmd`, `remove_rule_from_security_group`, and finally — despite the
  `print('Running post-command')` — `run_cmd(pre_command)` again
  (line 224); `post_command` is never run;
* no step is wrapped in a handler, so a failure anywhere raises and
  every later action (including the rule removal) is skipped. -/
def mainRun (env : Env) : List Event × Outcome :=
  match env.sslConn with
  | none => ([Event.sslConnect env.host], Outcome.exited 0)
  | some seconds_left =>
    match Decide seconds_left threshold with
    | Decision.skip => ([Event.sslConnect env.host], Outcome.finished)
    | Decision.renew =>
      let t0 := [Event.sslConnect env.host,
                 Event.printOut "Running pre-command",
                 Event.runCmd pre_command,
                 Event.httpGet identityDocUrl,
                 Event.httpGet sgMetadataUrl,
                 Event.describeSG env.sgName]
      match get_security_group_by_name env.world env.world.freshClient env.sgName with
      | none => (t0, Outcome.raised "IndexError")
      | some security_group =>
        let t1 := t0 ++ [Event.authorizeIngress security_group]
        if !env.authorizeOk then (t1, Outcome.raised "ClientError.authorize")
        else
          let t2 := t1 ++ [Event.runCmd certbotCmd]
          if !env.renewOk then (t2, Outcome.raised "UnexpectedException.renew")
          else
            let t3 := t2 ++ [Event.revokeIngress security_group]
            if !env.revokeOk then (t3, Outcome.raised "ClientError.revoke")
            else
              (t3 ++ [Event.printOut "Running post-command",
                      Event.runCmd pre_command], Outcome.finished)

/-- True of the EC2 API calls named in the spec: describe-security-groups,
authorize-ingress, revoke-ingress. -/
def isCloudCall : Event → Bool
  | Event.describeSG _ => true
  | Event.authorizeIngress _ => true
  | Event.revokeIngress _ => true
  | _ => false

/-- True of the two security-group mutations. -/
def isMutation : Event → Bool
  | Event.authorizeIngress _ => true
  | Event.revokeIngress _ => true
  | _ => false

/-- True of the revoke-ingress (rule removal) action. -/
def isRevoke : Event → Bool
  | Event.revokeIngress _ => true
  | _ => false

/-- True of the authorize-ingress (rule addition) action. -/
def isAuthorize : Event → Bool
  | Event.authorizeIngress _ => true
  | _ => false

/-- True of the certbot renewal-tool invocation. -/
def isCertbotRun : Event → Bool
  | Event.runCmd c => c = certbotCmd
  | _ => false

/-- Scans a trace left to right and checks the ordering discipline of the
renewal sequence: a certbot invocation is accepted only after an
authorize-ingress has been seen, and a revoke-ingress only after a
certbot invocation has been seen.  The two accumulators record whether an
add and a renewal have occurred so far. -/
def scanOrdered : List Event → Bool → Bool → Bool
  | [], _, _ => true
  | Event.authorizeIngress _ :: rest, _, seenRenew => scanOrdered rest true seenRenew
  | Event.runCmd c :: rest, seenAdd, seenRenew =>
    if c = certbotCmd then seenAdd && scanOrdered rest seenAdd true
    else scanOrdered rest seenAdd seenRenew
  | Event.revokeIngress _ :: rest, seenAdd, seenRenew =>
    seenRenew && scanOrdered rest seenAdd seenRenew
  | _ :: rest, seenAdd, seenRenew => scanOrdered rest seenAdd seenRenew

/-- Bool test for "the process exited with a non-zero status". -/
def exitedNonZero : Outcome → Bool
  | Outcome.exited c => decide (c ≠ 0)
  | _ => false

/-! ## Concrete environments used as witnesses -/

/-- A well-behaved EC2 world: every describe call finds one group. -/
def okWorld : Ec2World :=
  { describe := fun _ _ => [{ groupId := "sg-0123456789abcdef0" }], freshClient := 0 }

/-- The spec's Skip scenario: certificate expiring in 30 days
(2592000 seconds), threshold 5 days. -/
def skipEnv : Env :=
  { host := "example.com", sslConn := some 2592000, world := okWorld,
    sgName := "default", authorizeOk := true, renewOk := true, revokeOk := true }

/-- The spec's Renew scenario: certificate expiring in 3 days
(259200 seconds), everything succeeding. -/
def fullOkEnv : Env :=
  { host := "example.com", sslConn := some 259200, world := okWorld,
    sgName := "default", authorizeOk := true, renewOk := true, revokeOk := true }

/-- Renew scenario in which the certbot step raises an unexpected
exception. -/
def renewRaisesEnv : Env :=
  { host := "example.com", sslConn := some 259200, world := okWorld,
    sgName := "default", authorizeOk := true, renewOk := false, revokeOk := true }

/-- Renew scenario in which the revoke-ingress call fails. -/
def revokeFailsEnv : Env :=
  { host := "example.com", sslConn := some 259200, world := okWorld,
    sgName := "default", authorizeOk := true, renewOk := true, revokeOk := false }

/-- An invocation whose TLS connection cannot be established. -/
def connFailEnv : Env :=
  { host := "unreachable.example", sslConn := none, world := okWorld,
    sgName := "default", authorizeOk := true, renewOk := true, revokeOk := true }

/-- A world in which only the freshly constructed client (handle 0) can
see the group: any other handle's describe comes back empty. -/
def freshOnlyWorld : Ec2World :=
  { describe := fun c _ => if c = 0 then [{ groupId := "sg-fresh" }] else [],
    freshClient := 0 }

/-- A world in which no group matches any name. -/
def emptyWorld : Ec2World :=
  { describe := fun _ _ => [], freshClient := 0 }

/-! ## lambda302.py -/

/-- Embeds `event['headers']['Host'].split('.')[0]` (line 26): the first
element of Python's `str.split('.')` is the longest prefix of the string
containing no `'.'`. -/
def firstSubdomain (h : String) : String :=
  String.mk (h.toList.takeWhile (fun c => c != '.'))

/-- The response dictionary built by the handler (statusCode, the
Location header, and the JSON body). -/
structure LambdaResponse where
  statusCode : Nat
  location : String
  body : String
deriving DecidableEq, Repr

/-- The event passed by API Gateway, restricted to what the handler
reads: `none` models an event without a `'headers'` key; the association
list models the headers dictionary. -/
structure LambdaEvent where
  headers : Option (List (String × String))

/-- Python dict lookup `d[k]` on the modelled headers dictionary:
`none` models the raised `KeyError`. -/
def dictGet (d : List (String × String)) (k : String) : Option String :=
  (d.find? (fun kv => kv.1 == k)).map Prod.snd

/-- Embeds `lambda_handler` (lines 21-40 of lambda302.py): reads
`event['headers']['Host']` (a missing key raises KeyError), takes the
first subdomain, and returns a 302 response redirecting to the fixed
bucket; the body is `json.dumps({})`, i.e. `"{}"`. -/
def lambda_handler (event : LambdaEvent) : Except String LambdaResponse :=
  let bucket := "my-bucket-name"
  match event.headers with
  | none => Except.error "KeyError"
  | some hs =>
    match dictGet hs "Host" with
    | none => Except.error "KeyError"
    | some host =>
      let resource := firstSubdomain host
      Except.ok { statusCode := 302,
                  location := "https://" ++ bucket ++ ".s3.amazonaws.com/" ++ resource,
                  body := "{}" }

/-! ## Helper lemmas -/

theorem Decide_skip_of_le (s t : Int) (h : t ≤ s) : Decide s t = Decision.skip := by
  unfold Decide
  rw [if_neg (not_lt.mpr h)]

theorem Decide_renew_of_lt (s t : Int) (h : s < t) : Decide s t = Decision.renew := by
  unfold Decide
  rw [if_pos h]

/-! ## C2: the renewal decision -/

/-- C2: Decide is a pure function of (secondsRemaining, threshold): Renew iff
secondsRemaining < threshold, Skip otherwise; equality resolves to Skip. -/
theorem decide_renew_iff_below_threshold (s t : Int) :
    (Decide s t = Decision.renew ↔ s < t) ∧
    (Decide s t = Decision.skip ↔ ¬ s < t) ∧
    (s = t → Decide s t = Decision.skip) := by
  refine ⟨?_, ?_, ?_⟩
  · unfold Decide
    by_cases h : s < t <;> simp [h]
  · unfold Decide
    by_cases h : s < t <;> simp [h]
  · intro h
    unfold Decide
    simp [h]

/-- Witness for C2: at the boundary secondsRemaining = threshold (432000
seconds, i.e. 5 days), the decision is Skip. -/
theorem decide_renew_iff_below_threshold_witness :
    Decide 432000 432000 = Decision.skip :=
  (decide_renew_iff_below_threshold 432000 432000).2.2 rfl

/-! ## C3: the Skip path touches nothing -/

/-- C3: when the certificate check yields secondsRemaining ≥ threshold, the
run is only the TLS probe: no describe/authorize/revoke call occurs, in
particular no mutation, and the script just ends. -/
theorem skip_path_makes_no_cloud_calls (env : Env) (s : Int)
    (h1 : env.sslConn = some s) (h2 : threshold ≤ s) :
    mainRun env = ([Event.sslConnect env.host], Outcome.finished) ∧
    (mainRun env).1.filter isCloudCall = [] ∧
    (mainRun env).1.filter isMutation = [] := by
  have hd := Decide_skip_of_le s threshold h2
  have hm : mainRun env = ([Event.sslConnect env.host], Outcome.finished) := by
    simp only [mainRun, h1, hd]
  refine ⟨hm, ?_, ?_⟩ <;> rw [hm] <;> rfl

/-- Witness for C3: the 30-day certificate scenario with a 5-day
threshold performs no cloud API call. -/
theorem skip_path_makes_no_cloud_calls_witness :
    mainRun skipEnv = ([Event.sslConnect "example.com"], Outcome.finished) ∧
    (mainRun skipEnv).1.filter isCloudCall = [] ∧
    (mainRun skipEnv).1.filter isMutation = [] :=
  skip_path_makes_no_cloud_calls skipEnv 2592000 rfl (by decide)

/-! ## C4: failed TLS connection -/

/-- C4 counterexample: on a failed TLS connection the script prints the
exception and calls bare `sys.exit()` (lines 148-150), which terminates
with status 0 — not with a non-zero status as claimed. -/
theorem conn_failure_exit_code_zero_counterexample :
    (mainRun connFailEnv).2 = Outcome.exited 0 ∧
    exitedNonZero (mainRun connFailEnv).2 = false := by
  constructor <;> rfl

/-- C4 amended: on a failed TLS connection the process stops at once with
no retry and no cloud API call or security-group mutation, but it exits
with status 0 (bare `sys.exit()`), not a non-zero status. -/
theorem conn_failure_no_mutation_exits_zero (env : Env)
    (h : env.sslConn = none) :
    mainRun env = ([Event.sslConnect env.host], Outcome.exited 0) ∧
    (mainRun env).1.filter isCloudCall = [] ∧
    (mainRun env).1.filter isMutation = [] ∧
    exitedNonZero (mainRun env).2 = false := by
  have hm : mainRun env = ([Event.sslConnect env.host], Outcome.exited 0) := by
    unfold mainRun
    rw [h]
  refine ⟨hm, ?_, ?_, ?_⟩ <;> rw [hm] <;> rfl

/-- Witness for C4's amended claim at the concrete unreachable host. -/
theorem conn_failure_no_mutation_exits_zero_witness :
    mainRun connFailEnv = ([Event.sslConnect "unreachable.example"], Outcome.exited 0) ∧
    (mainRun connFailEnv).1.filter isCloudCall = [] ∧
    (mainRun connFailEnv).1.filter isMutation = [] ∧
    exitedNonZero (mainRun connFailEnv).2 = false :=
  conn_failure_no_mutation_exits_zero connFailEnv rfl

/-! ## C9: get_security_group_by_name -/

/-- C9: `get_security_group_by_name` ignores the ec2 client passed to it
(the body rebinds `ec2` to a fresh `boto3.client('ec2')`), returns the
GroupId of the first group the fresh client's describe call reports, and
is partial: an empty describe result gives no GroupId (the unguarded
`[0]` raises IndexError). -/
theorem get_security_group_by_name_partial_and_ignores_client
    (w : Ec2World) (c c' : Nat) (name : String) :
    get_security_group_by_name w c name = get_security_group_by_name w c' name ∧
    get_security_group_by_name w c name =
      ((w.describe w.freshClient name).map SecGroupInfo.groupId).head? ∧
    (w.describe w.freshClient name = [] →
      get_security_group_by_name w c name = none) := by
  refine ⟨rfl, rfl, ?_⟩
  intro h
  simp only [get_security_group_by_name]
  rw [h]
  rfl

/-- Witness for C9: with handle 5 — whose own describe view is empty — the
function still answers from the fresh client's view; and in a world with
no matching group the lookup yields nothing. -/
theorem get_security_group_by_name_partial_and_ignores_client_witness :
    get_security_group_by_name freshOnlyWorld 5 "web" =
      get_security_group_by_name freshOnlyWorld 7 "web" ∧
    freshOnlyWorld.describe 5 "web" = [] ∧
    get_security_group_by_name freshOnlyWorld 5 "web" = some "sg-fresh" ∧
    get_security_group_by_name emptyWorld 3 "web" = none := by
  refine ⟨(get_security_group_by_name_partial_and_ignores_client freshOnlyWorld 5 7 "web").1,
    rfl, ?_, (get_security_group_by_name_partial_and_ignores_client emptyWorld 3 3 "web").2.2 rfl⟩
  rw [(get_security_group_by_name_partial_and_ignores_client freshOnlyWorld 5 7 "web").2.1]
  rfl

/-! ## C1: cleanup on every exit path of the renewal attempt -/

/-- C1 (code-bug evaluation): the main block has no try/finally, so when
the certbot step dies of an unexpected exception, the rule removal is
never reached — `remove_rule_from_security_group` is invoked zero times,
not exactly once, and the process dies with the temporary ingress rule
still in place.  (The committed file cannot even reach this point: the
`run_cmd(` call of line 212 is never closed, so the file does not parse.) -/
theorem renew_exception_skips_rule_removal :
    (mainRun renewRaisesEnv).1.countP isAuthorize = 1 ∧
    (mainRun renewRaisesEnv).1.countP isCertbotRun = 1 ∧
    (mainRun renewRaisesEnv).1.countP isRevoke = 0 ∧
    (mainRun renewRaisesEnv).2 = Outcome.raised "UnexpectedException.renew" := by
  refine ⟨?_, ?_, ?_, ?_⟩ <;> rfl

/-! ## C6: failure of the rule removal -/

/-- C6 counterexample: when the revoke-ingress call fails, the removal is
attempted exactly once — there is no second (retry) attempt — and the
error propagates as an uncaught exception; nothing in the script raises
an operator-visible alert. -/
theorem remove_failure_not_retried_counterexample :
    (mainRun revokeFailsEnv).1.countP isRevoke = 1 ∧
    ¬ 2 ≤ (mainRun revokeFailsEnv).1.countP isRevoke ∧
    (mainRun revokeFailsEnv).2 = Outcome.raised "ClientError.revoke" := by
  refine ⟨rfl, by decide, rfl⟩

/-- C6 amended: on any renewal run whose revoke-ingress call fails, the
removal is attempted exactly once (no retry), and the failure surfaces
only as the uncaught exception that kills the process — no escalation or
alerting step exists. -/
theorem remove_failure_propagates_without_retry (env : Env) (s : Int) (sg : String)
    (h1 : env.sslConn = some s) (h2 : s < threshold)
    (h3 : get_security_group_by_name env.world env.world.freshClient env.sgName = some sg)
    (h4 : env.authorizeOk = true) (h5 : env.renewOk = true) (h6 : env.revokeOk = false) :
    (mainRun env).1.countP isRevoke = 1 ∧
    (mainRun env).2 = Outcome.raised "ClientError.revoke" := by
  have hd := Decide_renew_of_lt s threshold h2
  simp only [mainRun, h1, hd, h3, h4, h5, h6, Bool.not_true, Bool.not_false]
  constructor
  · simp [isRevoke, List.countP_cons, List.countP_append]
  · rfl

/-- Witness for C6's amended claim at the concrete failing-revoke run. -/
theorem remove_failure_propagates_without_retry_witness :
    (mainRun revokeFailsEnv).1.countP isRevoke = 1 ∧
    (mainRun revokeFailsEnv).2 = Outcome.raised "ClientError.revoke" :=
  remove_failure_propagates_without_retry revokeFailsEnv 259200 "sg-0123456789abcdef0"
    rfl (by decide) rfl rfl rfl rfl

/-! ## C7: ordering of add, renew, remove -/

/-- C7: on every Renew invocation, the trace respects the ordering
discipline — the certbot invocation never precedes the authorize-ingress
call and the revoke-ingress call never precedes the certbot invocation
(`scanOrdered`) — and on a fully successful run each of the three steps
occurs exactly once. -/
theorem renew_path_add_renew_remove_in_order (env : Env) (s : Int)
    (h1 : env.sslConn = some s) (h2 : s < threshold) :
    scanOrdered (mainRun env).1 false false = true ∧
    (∀ sg, get_security_group_by_name env.world env.world.freshClient env.sgName = some sg →
      env.authorizeOk = true → env.renewOk = true → env.revokeOk = true →
      (mainRun env).1.countP isAuthorize = 1 ∧
      (mainRun env).1.countP isCertbotRun = 1 ∧
      (mainRun env).1.countP isRevoke = 1) := by
  have hd := Decide_renew_of_lt s threshold h2
  have hpc : ¬ (pre_command = certbotCmd) := by decide
  constructor
  · cases h3 : get_security_group_by_name env.world env.world.freshClient env.sgName with
    | none =>
      simp only [mainRun, h1, hd, h3]
      simp [scanOrdered, hpc]
    | some sg =>
      cases h4 : env.authorizeOk with
      | false =>
        simp only [mainRun, h1, hd, h3, h4, Bool.not_false]
        simp [scanOrdered, hpc]
      | true =>
        cases h5 : env.renewOk with
        | false =>
          simp only [mainRun, h1, hd, h3, h4, h5, Bool.not_true, Bool.not_false]
          simp [scanOrdered, hpc]
        | true =>
          cases h6 : env.revokeOk with
          | false =>
            simp only [mainRun, h1, hd, h3, h4, h5, h6, Bool.not_true, Bool.not_false]
            simp [scanOrdered, hpc]
          | true =>
            simp only [mainRun, h1, hd, h3, h4, h5, h6, Bool.not_true, Bool.not_false]
            simp [scanOrdered, hpc]
  · intro sg h3 h4 h5 h6
    simp only [mainRun, h1, hd, h3, h4, h5, h6, Bool.not_true, Bool.not_false]
    refine ⟨?_, ?_, ?_⟩ <;>
      simp [isAuthorize, isCertbotRun, isRevoke, hpc,
        List.countP_cons, List.countP_append]

/-- Witness for C7 at the spec's Renew scenario (3-day certificate,
5-day threshold, all steps succeeding). -/
theorem renew_path_add_renew_remove_in_order_witness :
    scanOrdered (mainRun fullOkEnv).1 false false = true ∧
    ((mainRun fullOkEnv).1.countP isAuthorize = 1 ∧
     (mainRun fullOkEnv).1.countP isCertbotRun = 1 ∧
     (mainRun fullOkEnv).1.countP isRevoke = 1) :=
  ⟨(renew_path_add_renew_remove_in_order fullOkEnv 259200 rfl (by decide)).1,
   (renew_path_add_renew_remove_in_order fullOkEnv 259200 rfl (by decide)).2
     "sg-0123456789abcdef0" rfl rfl rfl rfl⟩

/-! ## C8: the post-renewal hook -/

/-- C8 (code-bug evaluation): after the rule removal the script prints
"Running post-command" but then executes `run_cmd(pre_command)` again
(line 224): the configured `post_command` is never run — the pre-command
is executed twice in a successful run and the post-command zero times —
and `run_cmd` discards exit status, so no failure of the hook can be
surfaced at all, let alone distinctly. -/
theorem post_step_runs_pre_command_not_post_command :
    Event.printOut "Running post-command" ∈ (mainRun fullOkEnv).1 ∧
    (mainRun fullOkEnv).1.countP (fun e => decide (e = Event.runCmd post_command)) = 0 ∧
    (mainRun fullOkEnv).1.countP (fun e => decide (e = Event.runCmd pre_command)) = 2 ∧
    (mainRun fullOkEnv).1.getLast? = some (Event.runCmd pre_command) ∧
    (mainRun fullOkEnv).2 = Outcome.finished ∧
    pre_command ≠ post_command := by
  refine ⟨by decide, rfl, rfl, rfl, rfl, by decide⟩

/-! ## C5: idempotency of add/remove -/

/-- C5 counterexample: adding the temporary rule to a group that already
holds an identical rule raises the API's duplicate error, and removing it
from a group that does not hold it raises the not-found error; neither
function catches anything, so both propagate as fatal. -/
theorem duplicate_add_and_absent_remove_raise_counterexample :
    add_rule_to_security_group { rules := [tempPerm] } =
      Except.error ApiError.duplicate ∧
    remove_rule_from_security_group { rules := [] } =
      Except.error ApiError.notFound := by
  constructor <;> rfl

/-- C5 amended: `add_rule_to_security_group` and
`remove_rule_from_security_group` perform no error handling: whenever the
identical rule is already present the add raises the duplicate error, and
whenever it is absent the remove raises the not-found error, and the
error propagates to the caller. -/
theorem rule_mutation_errors_propagate (sg : SecurityGroupState) :
    (tempPerm ∈ sg.rules →
      add_rule_to_security_group sg = Except.error ApiError.duplicate) ∧
    (tempPerm ∉ sg.rules →
      remove_rule_from_security_group sg = Except.error ApiError.notFound) := by
  constructor
  · intro h
    unfold add_rule_to_security_group authorize_ingress temp_rule
    simp [h]
  · intro h
    unfold remove_rule_from_security_group revoke_ingress temp_rule
    simp [h]

/-- Witness for C5's amended claim: a stale identical rule left by a
prior crashed run makes the add raise, and a group holding only the
https rule makes the remove raise. -/
theorem rule_mutation_errors_propagate_witness :
    add_rule_to_security_group { rules := [httpsPerm, tempPerm] } =
      Except.error ApiError.duplicate ∧
    remove_rule_from_security_group { rules := [httpsPerm] } =
      Except.error ApiError.notFound :=
  ⟨(rule_mutation_errors_propagate { rules := [httpsPerm, tempPerm] }).1 (by decide),
   (rule_mutation_errors_propagate { rules := [httpsPerm] }).2 (by decide)⟩

/-! ## C10: the subdomain redirect handler -/

theorem takeWhile_ne_dot_eq_self (l : List Char) (h : '.' ∉ l) :
    l.takeWhile (fun c => c != '.') = l := by
  induction l with
  | nil => rfl
  | cons a l ih =>
    simp only [List.mem_cons, not_or] at h
    have ha : (a != '.') = true := by
      rw [bne_iff_ne]
      exact fun e => h.1 e.symm
    rw [List.takeWhile_cons, if_pos ha, ih h.2]

theorem dropWhile_ne_dot_head (l : List Char) (h : '.' ∈ l) :
    ∃ t, l.dropWhile (fun c => c != '.') = '.' :: t := by
  induction l with
  | nil => cases h
  | cons a l ih =>
    rw [List.dropWhile_cons]
    by_cases ha : a = '.'
    · subst ha
      rw [if_neg (by simp)]
      exact ⟨l, rfl⟩
    · have ha' : (a != '.') = true := by
        rw [bne_iff_ne]
        exact ha
      rw [if_pos ha']
      apply ih
      rcases List.mem_cons.mp h with e | hl
      · exact absurd e.symm ha
      · exact hl

theorem firstSubdomain_eq_self_of_no_dot (h : String) (hnd : '.' ∉ h.toList) :
    firstSubdomain h = h := by
  unfold firstSubdomain
  rw [takeWhile_ne_dot_eq_self h.toList hnd]
  cases h
  rfl

theorem firstSubdomain_decomp (h : String) (hd : '.' ∈ h.toList) :
    ∃ t, h.toList = (firstSubdomain h).toList ++ '.' :: t ∧
      '.' ∉ (firstSubdomain h).toList := by
  have hts : (firstSubdomain h).toList = h.toList.takeWhile (fun c => c != '.') := rfl
  obtain ⟨t, ht⟩ := dropWhile_ne_dot_head h.toList hd
  refine ⟨t, ?_, ?_⟩
  · rw [hts, ← ht]
    exact (List.takeWhile_append_dropWhile (fun c => c != '.') h.toList).symm
  · rw [hts]
    intro hmem
    have := List.mem_takeWhile_imp hmem
    simp at this

/-- C10: for every event whose headers hold a Host value h, the handler
returns statusCode 302, body "{}", and a Location of
`https://my-bucket-name.s3.amazonaws.com/` followed by the first
subdomain of h — the prefix of h before its first '.', or all of h when
h has no '.'; an event with no headers key or no Host header makes the
handler raise KeyError instead. -/
theorem lambda302_redirect_spec :
    (∀ (ev : LambdaEvent) (hs : List (String × String)) (h : String),
      ev.headers = some hs → dictGet hs "Host" = some h →
      lambda_handler ev = Except.ok
        { statusCode := 302,
          location := "https://" ++ "my-bucket-name" ++ ".s3.amazonaws.com/" ++ firstSubdomain h,
          body := "{}" } ∧
      ('.' ∉ h.toList → firstSubdomain h = h) ∧
      ('.' ∈ h.toList → ∃ t, h.toList = (firstSubdomain h).toList ++ '.' :: t ∧
        '.' ∉ (firstSubdomain h).toList)) ∧
    (∀ ev : LambdaEvent, ev.headers = none →
      lambda_handler ev = Except.error "KeyError") ∧
    (∀ (ev : LambdaEvent) (hs : List (String × String)),
      ev.headers = some hs → dictGet hs "Host" = none →
      lambda_handler ev = Except.error "KeyError") := by
  refine ⟨?_, ?_, ?_⟩
  · intro ev hs h hev hhost
    refine ⟨?_, firstSubdomain_eq_self_of_no_dot h, firstSubdomain_decomp h⟩
    simp only [lambda_handler, hev, hhost]
  · intro ev hev
    simp only [lambda_handler, hev]
  · intro ev hs hev hhost
    simp only [lambda_handler, hev, hhost]

/-- Witness for C10: a Host of "files.example.com" redirects to the
"files" object; events lacking headers or the Host header error out. -/
theorem lambda302_redirect_spec_witness :
    lambda_handler { headers := some [("Host", "files.example.com")] } =
      Except.ok { statusCode := 302,
                  location := "https://my-bucket-name.s3.amazonaws.com/files",
                  body := "{}" } ∧
    lambda_handler { headers := none } = Except.error "KeyError" ∧
    lambda_handler { headers := some [("X-Forwarded-Proto", "https")] } =
      Except.error "KeyError" := by
  refine ⟨?_, lambda302_redirect_spec.2.1 { headers := none } rfl,
    lambda302_redirect_spec.2.2 { headers := some [("X-Forwarded-Proto", "https")] }
      [("X-Forwarded-Proto", "https")] rfl rfl⟩
  have h := (lambda302_redirect_spec.1 { headers := some [("Host", "files.example.com")] }
    [("Host", "files.example.com")] "files.example.com" rfl rfl).1
  exact h.trans (by rfl)

end ToolBin
